import Mathlib

/-
Shallow embedding of the roaming-interconnect backend client
(`backend/client.go`): data model, `NewClient`, the five dispatch
operations, the sync/async `request` flow, `getAsyncKey`,
`readAsync` and `writeAsync`, together with an interleaving
machine for the async request path (main goroutine, spawned
subscriber goroutine, answering peer).
-/

namespace Backend

/-! ## Decimal rendering

`getAsyncKey` renders the transaction id with `fmt.Sprintf("%d", id)`,
i.e. plain decimal.  The embedding uses `Nat.repr`, whose character list
is `Nat.toDigits 10`.  `decSpec` is a structurally transparent
reformulation used for proofs, related to `Nat.toDigits` below. -/

/-- Decimal digit list of a natural number, most significant digit first,
mirroring the output of `%d`. -/
def decSpec (n : Nat) : List Char :=
  if n < 10 then [Nat.digitChar n]
  else decSpec (n / 10) ++ [Nat.digitChar (n % 10)]
decreasing_by
  exact Nat.div_lt_self (by omega) (by omega)

/-- Recovers the numeric value from a digit list. -/
def valOfDigits (ds : List Char) : Nat :=
  ds.foldl (fun a c => 10 * a + (c.toNat - 48)) 0

/-! ## Message types and payload data model -/

/-- Modelled from the spec: the message-type tags form "a fixed closed set —
one tag per operation pair (request and answer share a tag)".  The constant
declarations themselves live outside `backend/client.go`; the tag names are
the ones `client.go` references (`PRStartReq`, `PRStopReq`, `XmitDataReq`,
`ProfileReq`, `HomeNSReq`). -/
inductive MessageType where
  | PRStartReq
  | PRStopReq
  | XmitDataReq
  | ProfileReq
  | HomeNSReq
deriving DecidableEq

/-- Modelled from the spec: in the source a `MessageType` is a string whose
value is the tag's name (the spec's async sample uses the literal
`PRStartReq` inside the correlation key). -/
def mtName : MessageType → String
  | .PRStartReq => "PRStartReq"
  | .PRStopReq => "PRStopReq"
  | .XmitDataReq => "XmitDataReq"
  | .ProfileReq => "ProfileReq"
  | .HomeNSReq => "HomeNSReq"

/-- Modelled from the spec: the distinguished success result code; the spec's
sync sample answer is `{"TransactionID":42,"Result":{"ResultCode":"Success"}}`. -/
def Success : String := "Success"

/-- Modelled from the spec: the protocol-version constant `ProtocolVersion1_0`
assigned by `NewClient`; its declaration lives outside `backend/client.go`. -/
def ProtocolVersion1_0 : String := "1.0"

/-- Base metadata stamped on every request (`BasePayload` in the source). -/
structure BasePayload where
  ProtocolVersion : String
  SenderID : String
  ReceiverID : String
  MessageType : Backend.MessageType
  TransactionID : Nat
deriving DecidableEq

/-- Result carried by every answer: `(ResultCode, Description)`. -/
structure Result where
  ResultCode : String
  Description : String
deriving DecidableEq

/-- A request payload: base metadata plus the operation-specific fields,
kept opaque. -/
structure ReqPayload where
  BasePayload : Backend.BasePayload
  Body : String
deriving DecidableEq

/-- An answer payload: base metadata, the result, and opaque
operation-specific fields. -/
structure AnsPayload where
  BasePayload : Backend.BasePayload
  Result : Backend.Result
  Body : String
deriving DecidableEq

/-! ## Client construction (`ClientConfig`, `NewClient`) -/

/-- `ClientConfig` from the source. `RedisClient` is the *presence* of the
optional Redis client (`*redis.Client` being non-nil); `AsyncTimeout` is the
duration in abstract units. -/
structure ClientConfig where
  SenderID : String
  ReceiverID : String
  Server : String
  CACert : String
  TLSCert : String
  TLSKey : String
  RedisClient : Bool
  AsyncTimeout : Nat
deriving DecidableEq

/-- Outcomes of the filesystem / x509 calls `NewClient` makes on its TLS
branch (`ioutil.ReadFile`, `AppendCertsFromPEM`, `tls.LoadX509KeyPair`). -/
structure TLSEnv where
  caReadFails : Bool
  appendOK : Bool
  keyPairFails : Bool

/-- The error cases of `NewClient`. -/
inductive NewClientError where
  | readCACert
  | appendCACert
  | loadKeyPair
deriving DecidableEq

/-- The `client` struct from the source.  `httpDefaultClient` records which
HTTP client was installed; `redisClient` is presence of the Redis client. -/
structure client where
  server : String
  httpDefaultClient : Bool
  protocolVersion : String
  senderID : String
  receiverID : String
  redisClient : Bool
  asyncTimeout : Nat
deriving DecidableEq

/-- `NewClient` from the source.  On the branch with no TLS material it fills
in identity, protocol version, Redis client and async timeout; on the TLS
branch the returned struct literal sets only `server` and `httpClient`, so the
remaining fields keep Go's zero values (`""`, `nil`, `0`). -/
def NewClient (config : ClientConfig) (env : TLSEnv) : Except NewClientError client :=
  if config.CACert = "" ∧ config.TLSCert = "" ∧ config.TLSKey = "" then
    .ok { server := config.Server
          httpDefaultClient := true
          protocolVersion := ProtocolVersion1_0
          senderID := config.SenderID
          receiverID := config.ReceiverID
          redisClient := config.RedisClient
          asyncTimeout := config.AsyncTimeout }
  else if config.CACert ≠ "" ∧ env.caReadFails then .error .readCACert
  else if config.CACert ≠ "" ∧ ¬ env.appendOK then .error .appendCACert
  else if (config.TLSCert ≠ "" ∨ config.TLSKey ≠ "") ∧ env.keyPairFails then .error .loadKeyPair
  else
    .ok { server := config.Server
          httpDefaultClient := false
          protocolVersion := ""
          senderID := ""
          receiverID := ""
          redisClient := false
          asyncTimeout := 0 }

/-- `client.GetSenderID`. -/
def GetSenderID (c : client) : String := c.senderID

/-- `client.GetReceiverID`. -/
def GetReceiverID (c : client) : String := c.receiverID

/-- `client.IsAsync`: `c.redisClient != nil`. -/
def IsAsync (c : client) : Bool := c.redisClient

/-! ## Correlation key (`getAsyncKey`) -/

/-- `client.getAsyncKey`: `fmt.Sprintf("lora:backend:async:%s:%d", typ, id)`. -/
def getAsyncKey (typ : MessageType) (id : Nat) : String :=
  "lora:backend:async:" ++ mtName typ ++ ":" ++ Nat.repr id

/-- The key the subscribing side computes in `client.request`
(`c.getAsyncKey(pl.GetBasePayload().MessageType, pl.GetBasePayload().TransactionID)`). -/
def requestSubKey (pl : ReqPayload) : String :=
  getAsyncKey pl.BasePayload.MessageType pl.BasePayload.TransactionID

/-- The key the publishing side computes in `client.writeAsync`
(`c.getAsyncKey(typ, pl.GetBasePayload().TransactionID)`). -/
def writeAsyncKey (typ : MessageType) (pl : AnsPayload) : String :=
  getAsyncKey typ pl.BasePayload.TransactionID

/-! ## Failure kinds and the functional `request` model -/

/-- The failure kinds the client can surface, one constructor per distinct
error produced in the source: `json marshal error`, `http post error`, the raw
`ioutil.ReadAll` error forwarded through `errorChan`, `unmarshal response
error`, `ErrAsyncTimeout`, the formatted `response error, code: %s,
description: %s` (carrying code and description), `marshal answer error` and
`publish answer error` from `writeAsync`. -/
inductive Err where
  | jsonMarshal
  | httpPost
  | readBody
  | unmarshalResponse
  | asyncTimeout
  | responseError (code desc : String)
  | marshalAnswer
  | publishAnswer
deriving DecidableEq

/-- `json.Unmarshal` of a response body: the body either decodes to an answer
payload or does not. -/
def unmarshalAns (b : Option AnsPayload) : Except Err AnsPayload :=
  match b with
  | some a => .ok a
  | none => .error .unmarshalResponse

/-- External outcomes a single `client.request` call can observe:
whether `json.Marshal` fails, the result of `httpClient.Post` (an HTTP status
plus the result of reading the response body) and, in async mode, the message
(if any) delivered on the subscribed correlation key before the timeout. -/
structure ReqEnv where
  marshalFails : Bool
  post : Except Unit (Nat × Except Unit (Option AnsPayload))
  asyncDelivered : Option (Option AnsPayload)

/-- Functional model of `client.request`: marshal, POST, then either decode
the HTTP response body (sync mode: any status, no status check) or take the
outcome of the async race (delivered message, or `ErrAsyncTimeout`).
A failed POST returns `http post error` immediately in both modes. -/
def request (c : client) (env : ReqEnv) (pl : ReqPayload) : Except Err AnsPayload :=
  if env.marshalFails then .error .jsonMarshal
  else
    match env.post with
    | .error _ => .error .httpPost
    | .ok (_status, bodyRead) =>
      if IsAsync c then
        match env.asyncDelivered with
        | some b => unmarshalAns b
        | none => .error .asyncTimeout
      else
        match bodyRead with
        | .error _ => .error .readBody
        | .ok b => unmarshalAns b

/-! ## The five dispatch operations

Each returns the stamped payload that was handed to `request` (i.e. what was
marshalled and sent) together with the operation's outcome. -/

/-- Stamping common to the five operations: overwrite `ProtocolVersion`,
`SenderID`, `ReceiverID` and `MessageType` on the payload's base. -/
def stamp (c : client) (typ : MessageType) (pl : ReqPayload) : ReqPayload :=
  { pl with BasePayload :=
      { pl.BasePayload with
          ProtocolVersion := c.protocolVersion
          SenderID := c.senderID
          ReceiverID := c.receiverID
          MessageType := typ } }

/-- Result-code validation shared by the five operations. -/
def checkResult (r : Except Err AnsPayload) : Except Err AnsPayload :=
  match r with
  | .error e => .error e
  | .ok ans =>
    if ans.Result.ResultCode ≠ Success then
      .error (.responseError ans.Result.ResultCode ans.Result.Description)
    else
      .ok ans

/-- `client.PRStartReq`. -/
def PRStartReq (c : client) (env : ReqEnv) (pl : ReqPayload) :
    ReqPayload × Except Err AnsPayload :=
  let pl := stamp c .PRStartReq pl
  (pl, checkResult (request c env pl))

/-- `client.PRStopReq`. -/
def PRStopReq (c : client) (env : ReqEnv) (pl : ReqPayload) :
    ReqPayload × Except Err AnsPayload :=
  let pl := stamp c .PRStopReq pl
  (pl, checkResult (request c env pl))

/-- `client.XmitDataReq`. -/
def XmitDataReq (c : client) (env : ReqEnv) (pl : ReqPayload) :
    ReqPayload × Except Err AnsPayload :=
  let pl := stamp c .XmitDataReq pl
  (pl, checkResult (request c env pl))

/-- `client.ProfileReq`. -/
def ProfileReq (c : client) (env : ReqEnv) (pl : ReqPayload) :
    ReqPayload × Except Err AnsPayload :=
  let pl := stamp c .ProfileReq pl
  (pl, checkResult (request c env pl))

/-- `client.HomeNSReq`. -/
def HomeNSReq (c : client) (env : ReqEnv) (pl : ReqPayload) :
    ReqPayload × Except Err AnsPayload :=
  let pl := stamp c .HomeNSReq pl
  (pl, checkResult (request c env pl))

/-! ## `readAsync` and `writeAsync` -/

/-- `client.readAsync` as a function of what the subscription delivered
within the `asyncTimeout` window: a delivered message wins the `select`,
otherwise the `time.After` branch returns `ErrAsyncTimeout`. The
subscription is closed (`defer sub.Close()`) before either value is
returned. -/
def readAsync (delivered : Option String) : Except Err String :=
  match delivered with
  | some msg => .ok msg
  | none => .error .asyncTimeout

/-- External outcomes `client.writeAsync` can observe. -/
structure WriteEnv where
  marshalFails : Bool
  publishFails : Bool

/-- `client.writeAsync`: marshal the answer, then publish it on
`getAsyncKey typ pl.BasePayload.TransactionID`; surface `marshal answer
error` and `publish answer error`. -/
def writeAsync (env : WriteEnv) (typ : MessageType) (pl : AnsPayload) :
    Except Err Unit :=
  if env.marshalFails then .error .marshalAnswer
  else if env.publishFails then .error .publishAnswer
  else .ok ()

/-! ## Interleaving machine for the async `client.request` path

`client.request` in async mode runs three concurrent activities:

* the main goroutine: spawn the subscriber goroutine (`go func() {...}`),
  POST the request, on POST failure return `http post error` immediately,
  otherwise block on `select` over `errorChan` / `responseChan`;
* the spawned goroutine: `readAsync` — `Subscribe(key)`, wait for a message
  or the timeout, `sub.Close()` (the `defer`), then send the outcome on the
  corresponding channel;
* the peer: after receiving the POSTed request it may publish one answer on
  the correlation key; the publish is delivered into the subscription's
  channel only if the subscription is open at that moment, and is lost
  otherwise.

A schedule is a list of events; an event fires only when its thread has
reached it (Go's `go` statement creates a runnable goroutine but imposes no
ordering between the goroutine's body and the statements following `go`). -/

/-- Program counter of the main goroutine inside async `request`. -/
inductive MainPC where
  | toSpawn
  | toPost
  | failedPost
  | atSelect
  | done
deriving DecidableEq

/-- Program counter of the spawned subscriber goroutine. -/
inductive GoPC where
  | notSpawned
  | toSubscribe
  | waiting
  | toClose
  | toSend
  | finished
deriving DecidableEq

/-- Events of the async request path. -/
inductive Ev where
  | spawn
  | subscribe
  | post
  | publish
  | recv
  | timeout
  | closeSub
  | send
  | ret
deriving DecidableEq

/-- Environment of one async request: whether the POST fails, and the answer
(if any) the peer publishes after receiving the request. -/
structure AsyncEnv where
  postFails : Bool
  peerAnswer : Option String
deriving DecidableEq

/-- Outcome of the `select` inside `readAsync`: a delivered message, or the
timeout. -/
inductive SelOutcome where
  | msg (m : String)
  | timedOut
deriving DecidableEq

/-- State of the machine.  `inbox` is the subscription's channel, `respChan`
and `errChan` the two buffered result channels, `outcome` the value
`readAsync`'s `select` produced, `result` the value `request` returned, and
`retSubOpen` whether the subscription was still open at the moment
`request` returned. -/
structure AState where
  mainPC : MainPC
  goPC : GoPC
  subOpen : Bool
  posted : Bool
  published : Bool
  inbox : Option String
  outcome : Option SelOutcome
  respChan : Option String
  errChan : Option Err
  result : Option (Except Err String)
  retSubOpen : Option Bool
  trace : List Ev

/-- Initial state: nothing has run. -/
def initState : AState :=
  { mainPC := .toSpawn
    goPC := .notSpawned
    subOpen := false
    posted := false
    published := false
    inbox := none
    outcome := none
    respChan := none
    errChan := none
    result := none
    retSubOpen := none
    trace := [] }

/-- Response channel content produced by the goroutine's final send:
the received message, when the `select` outcome was a message. -/
def outRespChan : Option SelOutcome → Option String
  | some (.msg m) => some m
  | _ => none

/-- Error channel content produced by the goroutine's final send:
`ErrAsyncTimeout`, when the `select` outcome was the timeout. -/
def outErrChan : Option SelOutcome → Option Err
  | some .timedOut => some Err.asyncTimeout
  | _ => none

/-- One step of the machine: fire `e` if it is enabled, else refuse.
In the two `select`-return branches the `Option.getD` defaults are dead:
the guards require the corresponding channel to be non-empty. -/
def step (env : AsyncEnv) (s : AState) (e : Ev) : Option AState :=
  match e with
  | .spawn =>
    if s.mainPC = .toSpawn ∧ s.goPC = .notSpawned then
      some { s with mainPC := .toPost, goPC := .toSubscribe, trace := s.trace ++ [Ev.spawn] }
    else none
  | .subscribe =>
    if s.goPC = .toSubscribe then
      some { s with subOpen := true, goPC := .waiting, trace := s.trace ++ [Ev.subscribe] }
    else none
  | .post =>
    if s.mainPC = .toPost then
      some { s with posted := true
                    mainPC := if env.postFails then .failedPost else .atSelect
                    trace := s.trace ++ [Ev.post] }
    else none
  | .publish =>
    if s.posted ∧ ¬ s.published ∧ env.peerAnswer ≠ none then
      some { s with published := true
                    inbox := if s.subOpen then env.peerAnswer else none
                    trace := s.trace ++ [Ev.publish] }
    else none
  | .recv =>
    if s.goPC = .waiting ∧ s.inbox ≠ none then
      some { s with goPC := .toClose, outcome := s.inbox.map SelOutcome.msg, inbox := none
                    trace := s.trace ++ [Ev.recv] }
    else none
  | .timeout =>
    if s.goPC = .waiting ∧ s.inbox = none then
      some { s with goPC := .toClose, outcome := some .timedOut
                    trace := s.trace ++ [Ev.timeout] }
    else none
  | .closeSub =>
    if s.goPC = .toClose then
      some { s with subOpen := false, goPC := .toSend, trace := s.trace ++ [Ev.closeSub] }
    else none
  | .send =>
    if s.goPC = .toSend ∧ s.outcome ≠ none then
      some { s with respChan := outRespChan s.outcome, errChan := outErrChan s.outcome
                    goPC := .finished, trace := s.trace ++ [Ev.send] }
    else none
  | .ret =>
    if s.mainPC = .failedPost then
      some { s with result := some (.error .httpPost), retSubOpen := some s.subOpen
                    mainPC := .done, trace := s.trace ++ [Ev.ret] }
    else if s.mainPC = .atSelect ∧ s.errChan ≠ none then
      some { s with result := some (.error (s.errChan.getD Err.asyncTimeout))
                    retSubOpen := some s.subOpen
                    mainPC := .done, trace := s.trace ++ [Ev.ret] }
    else if s.mainPC = .atSelect ∧ s.respChan ≠ none then
      some { s with result := some (.ok (s.respChan.getD ""))
                    retSubOpen := some s.subOpen
                    mainPC := .done, trace := s.trace ++ [Ev.ret] }
    else none

/-- Run a schedule from the initial state; `none` when some event of the
schedule was not enabled. -/
def requestRun (env : AsyncEnv) (evs : List Ev) : Option AState :=
  evs.foldlM (fun s e => step env s e) initState

/-- Whether the first `subscribe` of a trace precedes the first `post`
(vacuously true when no `post` occurs). -/
def subBeforePost : List Ev → Bool
  | [] => true
  | .subscribe :: _ => true
  | .post :: _ => false
  | _ :: tl => subBeforePost tl

/-- Invariant of the machine: (A) while the subscription is open the
goroutine sits between its subscribe and its close; (B) either both result
channels are empty, or the goroutine has finished and the subscription is
closed; (C) when the POST fails the main goroutine never reaches the
`select`; (C2) when the POST fails any returned result is the transport
failure; (D) any returned result is the transport failure or was returned
with the subscription already closed; (E) `errChan` carries at most
`ErrAsyncTimeout`. -/
def Inv (env : AsyncEnv) (s : AState) : Prop :=
  (s.subOpen = true → s.goPC = .waiting ∨ s.goPC = .toClose) ∧
  ((s.respChan = none ∧ s.errChan = none) ∨ (s.goPC = .finished ∧ s.subOpen = false)) ∧
  (env.postFails = true → ¬ s.mainPC = .atSelect) ∧
  (env.postFails = true → s.result = none ∨ s.result = some (.error Err.httpPost)) ∧
  (s.result = none ∨ s.result = some (.error Err.httpPost) ∨ s.retSubOpen = some false) ∧
  (s.errChan = none ∨ s.errChan = some Err.asyncTimeout)

instance {α β : Type} [DecidableEq α] [DecidableEq β] : DecidableEq (Except α β) :=
  fun a b =>
  match a, b with
  | .ok x, .ok y =>
    if h : x = y then .isTrue (congrArg Except.ok h)
    else .isFalse (fun hc => h (Except.ok.inj hc))
  | .error x, .error y =>
    if h : x = y then .isTrue (congrArg Except.error h)
    else .isFalse (fun hc => h (Except.error.inj hc))
  | .ok _, .error _ => .isFalse (fun hc => Except.noConfusion hc)
  | .error _, .ok _ => .isFalse (fun hc => Except.noConfusion hc)

/-! ## Concrete fixtures used by witnesses and counterexamples -/

/-- A request payload fixture with transaction id 7. -/
def plReqW : ReqPayload :=
  { BasePayload := { ProtocolVersion := "x", SenderID := "a", ReceiverID := "b"
                     MessageType := .PRStartReq, TransactionID := 7 }
    Body := "body" }

/-- An answer fixture with a non-success result code. -/
def ansErrW : AnsPayload :=
  { BasePayload := { ProtocolVersion := "1.0", SenderID := "b", ReceiverID := "a"
                     MessageType := .PRStartReq, TransactionID := 7 }
    Result := { ResultCode := "500", Description := "server error" }
    Body := "" }

/-- An answer fixture with the success result code and transaction id 7. -/
def ansOkW : AnsPayload :=
  { BasePayload := { ProtocolVersion := "1.0", SenderID := "b", ReceiverID := "a"
                     MessageType := .PRStartReq, TransactionID := 7 }
    Result := { ResultCode := "Success", Description := "" }
    Body := "" }

/-- A configuration with no TLS material and a Redis client. -/
def cfgW : ClientConfig :=
  { SenderID := "s", ReceiverID := "r", Server := "srv"
    CACert := "", TLSCert := "", TLSKey := ""
    RedisClient := true, AsyncTimeout := 5 }

/-- A configuration with a CA certificate and a Redis client. -/
def cfgTLSW : ClientConfig :=
  { SenderID := "s", ReceiverID := "r", Server := "srv"
    CACert := "ca.pem", TLSCert := "", TLSKey := ""
    RedisClient := true, AsyncTimeout := 5 }

/-- A TLS environment in which every external call succeeds. -/
def tenvW : TLSEnv := { caReadFails := false, appendOK := true, keyPairFails := false }

/-- The client produced by `NewClient` from `cfgW`. -/
def cW : client :=
  { server := "srv", httpDefaultClient := true, protocolVersion := ProtocolVersion1_0
    senderID := "s", receiverID := "r", redisClient := true, asyncTimeout := 5 }

/-- The client produced by `NewClient` from `cfgTLSW`. -/
def cZeroW : client :=
  { server := "srv", httpDefaultClient := false, protocolVersion := ""
    senderID := "", receiverID := "", redisClient := false, asyncTimeout := 0 }

/-- A sync-mode client. -/
def cSyncW : client :=
  { server := "srv", httpDefaultClient := true, protocolVersion := "1.0"
    senderID := "s", receiverID := "r", redisClient := false, asyncTimeout := 0 }

/-- A request environment delivering `ansOkW` in the HTTP response body. -/
def renvW : ReqEnv :=
  { marshalFails := false, post := .ok (200, .ok (some ansOkW)), asyncDelivered := none }

/-- A request environment delivering `ansErrW` in the HTTP response body. -/
def renvErrW : ReqEnv :=
  { marshalFails := false, post := .ok (200, .ok (some ansErrW)), asyncDelivered := none }

/-- Async environment: POST succeeds, the peer answers. -/
def envRace : AsyncEnv := { postFails := false, peerAnswer := some "ans" }

/-- Async environment: POST fails, the peer answers anyway. -/
def envPostFail : AsyncEnv := { postFails := true, peerAnswer := some "ans" }

/-- Async environment: POST succeeds, the peer never answers. -/
def envNoAnswer : AsyncEnv := { postFails := false, peerAnswer := none }

/-- A schedule in which the POST and the peer's publish run before the
spawned goroutine has executed its subscribe. -/
def actsRace : List Ev :=
  [.spawn, .post, .publish, .subscribe, .timeout, .closeSub, .send, .ret]

/-- The intended schedule: subscribe, POST, publish, receive, close, send,
return. -/
def actsFull : List Ev :=
  [.spawn, .subscribe, .post, .publish, .recv, .closeSub, .send, .ret]

/-- POST fails and the main goroutine returns at once, while the subscriber
goroutine is still waiting. -/
def actsPostFailEarly : List Ev := [.spawn, .subscribe, .post, .ret]

/-- Nothing is published: the goroutine times out. -/
def actsNoAnswer : List Ev :=
  [.spawn, .subscribe, .post, .timeout, .closeSub, .send, .ret]

/-! ## Proofs -/

theorem digitChar_toNat {d : Nat} (h : d < 10) : (Nat.digitChar d).toNat - 48 = d := by
  interval_cases d <;> rfl

theorem digitChar_ne_colon {d : Nat} (h : d < 10) : Nat.digitChar d ≠ ':' := by
  interval_cases d <;> decide

theorem valOfDigits_append_one (ds : List Char) (c : Char) :
    valOfDigits (ds ++ [c]) = 10 * valOfDigits ds + (c.toNat - 48) := by
  simp [valOfDigits, List.foldl_append]

theorem valOfDigits_decSpec (n : Nat) : valOfDigits (decSpec n) = n := by
  induction n using Nat.strong_induction_on with
  | _ n ih =>
    rw [decSpec]
    by_cases h : n < 10
    · simp only [h, if_true]
      simp [valOfDigits, digitChar_toNat h]
    · simp only [h, if_false]
      rw [valOfDigits_append_one]
      rw [ih (n / 10) (Nat.div_lt_self (by omega) (by omega))]
      rw [digitChar_toNat (Nat.mod_lt _ (by omega))]
      omega

theorem decSpec_injective : Function.Injective decSpec := by
  intro a b h
  have := valOfDigits_decSpec a
  rw [h, valOfDigits_decSpec] at this
  omega

theorem colon_not_mem_decSpec (n : Nat) : ':' ∉ decSpec n := by
  induction n using Nat.strong_induction_on with
  | _ n ih =>
    rw [decSpec]
    by_cases h : n < 10
    · simp only [h, if_true]
      simp [List.mem_singleton]
      exact fun hc => digitChar_ne_colon h hc.symm
    · simp only [h, if_false]
      intro hmem
      rcases List.mem_append.mp hmem with hl | hr
      · exact ih (n / 10) (Nat.div_lt_self (by omega) (by omega)) hl
      · rcases List.mem_singleton.mp hr with h0
        exact digitChar_ne_colon (Nat.mod_lt _ (by omega)) h0.symm

theorem toDigitsCore_eq_decSpec (fuel : Nat) :
    ∀ n ds, n ≤ fuel → Nat.toDigitsCore 10 (fuel + 1) n ds = decSpec n ++ ds := by
  induction fuel with
  | zero =>
    intro n ds hn
    have hn0 : n = 0 := Nat.le_zero.mp hn
    subst hn0
    rw [decSpec]
    rfl
  | succ fuel ih =>
    intro n ds hn
    by_cases h : n < 10
    · have hdiv : n / 10 = 0 := Nat.div_eq_of_lt h
      have hmod : n % 10 = n := Nat.mod_eq_of_lt h
      rw [decSpec]
      simp only [h, if_true]
      show Nat.toDigitsCore 10 (fuel + 2) n ds = _
      unfold Nat.toDigitsCore
      simp [hdiv, hmod]
    · have hdivlt : n / 10 < n := Nat.div_lt_self (by omega) (by omega)
      have hfuel : n / 10 ≤ fuel := by omega
      have hdivne : ¬ (n / 10 = 0) := by
        intro h0
        have := (Nat.div_eq_zero_iff (by omega : 0 < 10)).mp h0
        omega
      rw [decSpec]
      simp only [h, if_false]
      show Nat.toDigitsCore 10 (fuel + 2) n ds = _
      unfold Nat.toDigitsCore
      simp only [hdivne, if_false]
      rw [ih (n / 10) (Nat.digitChar (n % 10) :: ds) hfuel]
      simp

theorem toDigits_eq_decSpec (n : Nat) : Nat.toDigits 10 n = decSpec n := by
  have := toDigitsCore_eq_decSpec n n [] (Nat.le_refl n)
  simpa [Nat.toDigits] using this

theorem repr_data_eq_decSpec (n : Nat) : (Nat.repr n).data = decSpec n := by
  show (Nat.toDigits 10 n).asString.data = decSpec n
  rw [toDigits_eq_decSpec]
  rfl

/-- Splitting at a separator character that occurs in neither left part is
unambiguous. -/
theorem colon_split_unique :
    ∀ (xs1 : List Char) (xs2 ys1 ys2 : List Char), ':' ∉ xs1 → ':' ∉ xs2 →
      xs1 ++ ':' :: ys1 = xs2 ++ ':' :: ys2 → xs1 = xs2 ∧ ys1 = ys2 := by
  intro xs1
  induction xs1 with
  | nil =>
    intro xs2 ys1 ys2 _ hx2 heq
    cases xs2 with
    | nil => simpa using heq
    | cons c t =>
      rw [List.mem_cons] at hx2
      push_neg at hx2
      simp only [List.nil_append, List.cons_append, List.cons.injEq] at heq
      exact absurd heq.1 hx2.1
  | cons c t ih =>
    intro xs2 ys1 ys2 hx1 hx2 heq
    rw [List.mem_cons] at hx1
    push_neg at hx1
    cases xs2 with
    | nil =>
      simp only [List.cons_append, List.nil_append, List.cons.injEq] at heq
      exact absurd heq.1 (fun hcc => hx1.1 hcc.symm)
    | cons c2 t2 =>
      rw [List.mem_cons] at hx2
      push_neg at hx2
      simp only [List.cons_append, List.cons.injEq] at heq
      obtain ⟨hc, ht⟩ := heq
      have := ih t2 ys1 ys2 hx1.2 hx2.2 ht
      exact ⟨by rw [hc, this.1], this.2⟩

theorem step_inv {env : AsyncEnv} {s s' : AState} {e : Ev}
    (hInv : Inv env s) (hs : step env s e = some s') : Inv env s' := by
  obtain ⟨hA, hB, hC, hC2, hD, hE⟩ := hInv
  cases e <;> simp only [step] at hs
  case spawn =>
    split at hs
    case isTrue hg =>
      cases hs
      refine ⟨?_, ?_, ?_, hC2, hD, hE⟩
      · intro hso
        exfalso
        rcases hA hso with h | h <;> rw [hg.2] at h <;> exact absurd h (by decide)
      · rcases hB with h | h
        · exact Or.inl h
        · exfalso
          have h1 := h.1
          rw [hg.2] at h1
          exact absurd h1 (by decide)
      · intro _ hcon
        cases hcon
    case isFalse => cases hs
  case subscribe =>
    split at hs
    case isTrue hg =>
      cases hs
      refine ⟨?_, ?_, hC, hC2, hD, hE⟩
      · intro _
        exact Or.inl rfl
      · rcases hB with h | h
        · exact Or.inl h
        · exfalso
          have h1 := h.1
          rw [hg] at h1
          exact absurd h1 (by decide)
    case isFalse => cases hs
  case post =>
    split at hs
    case isTrue hg =>
      cases hs
      refine ⟨hA, hB, ?_, hC2, hD, hE⟩
      intro hpf
      simp [hpf]
    case isFalse => cases hs
  case publish =>
    split at hs
    case isTrue hg =>
      cases hs
      exact ⟨hA, hB, hC, hC2, hD, hE⟩
    case isFalse => cases hs
  case recv =>
    split at hs
    case isTrue hg =>
      cases hs
      refine ⟨?_, ?_, hC, hC2, hD, hE⟩
      · intro _
        exact Or.inr rfl
      · rcases hB with h | h
        · exact Or.inl h
        · exfalso
          have h1 := h.1
          rw [hg.1] at h1
          exact absurd h1 (by decide)
    case isFalse => cases hs
  case timeout =>
    split at hs
    case isTrue hg =>
      cases hs
      refine ⟨?_, ?_, hC, hC2, hD, hE⟩
      · intro _
        exact Or.inr rfl
      · rcases hB with h | h
        · exact Or.inl h
        · exfalso
          have h1 := h.1
          rw [hg.1] at h1
          exact absurd h1 (by decide)
    case isFalse => cases hs
  case closeSub =>
    split at hs
    case isTrue hg =>
      cases hs
      refine ⟨?_, ?_, hC, hC2, hD, hE⟩
      · intro hso
        cases hso
      · rcases hB with h | h
        · exact Or.inl h
        · exfalso
          have h1 := h.1
          rw [hg] at h1
          exact absurd h1 (by decide)
    case isFalse => cases hs
  case send =>
    split at hs
    case isTrue hg =>
      cases hs
      have hsub : s.subOpen = false := by
        rcases hcs : s.subOpen with _ | _
        · rfl
        · exfalso
          rcases hA hcs with h | h <;> rw [hg.1] at h <;> exact absurd h (by decide)
      refine ⟨?_, ?_, hC, hC2, hD, ?_⟩
      · intro hso
        have hso' : s.subOpen = true := hso
        rw [hsub] at hso'
        cases hso'
      · exact Or.inr ⟨rfl, hsub⟩
      · rcases ho : s.outcome with _ | o
        · exact Or.inl (by simp [outErrChan])
        · cases o
          · exact Or.inl (by simp [outErrChan])
          · exact Or.inr (by simp [outErrChan])
    case isFalse => cases hs
  case ret =>
    split at hs
    case isTrue hg =>
      cases hs
      refine ⟨hA, hB, ?_, ?_, ?_, hE⟩
      · intro _ hcon
        cases hcon
      · intro _
        exact Or.inr rfl
      · exact Or.inr (Or.inl rfl)
    case isFalse hg0 =>
      split at hs
      case isTrue hg =>
        cases hs
        refine ⟨hA, hB, ?_, ?_, ?_, hE⟩
        · intro _ hcon
          cases hcon
        · intro hpf
          exact absurd hg.1 (hC hpf)
        · refine Or.inr (Or.inr ?_)
          rcases hB with h | h
          · exact absurd h.2 hg.2
          · rw [h.2]
      case isFalse hg1 =>
        split at hs
        case isTrue hg =>
          cases hs
          refine ⟨hA, hB, ?_, ?_, ?_, hE⟩
          · intro _ hcon
            cases hcon
          · intro hpf
            exact absurd hg.1 (hC hpf)
          · refine Or.inr (Or.inr ?_)
            rcases hB with h | h
            · exact absurd h.1 hg.2
            · rw [h.2]
        case isFalse => cases hs

theorem init_inv (env : AsyncEnv) : Inv env initState := by
  refine ⟨?_, Or.inl ⟨rfl, rfl⟩, ?_, ?_, Or.inl rfl, Or.inl rfl⟩
  · intro h
    cases h
  · intro _ hcon
    cases hcon
  · intro _
    exact Or.inl rfl

theorem foldlM_inv (env : AsyncEnv) (evs : List Ev) :
    ∀ s0 s, Inv env s0 →
      List.foldlM (fun s e => step env s e) s0 evs = some s → Inv env s := by
  induction evs with
  | nil =>
    intro s0 s h0 h
    simp only [List.foldlM_nil] at h
    cases h
    exact h0
  | cons e tl ih =>
    intro s0 s h0 h
    rw [List.foldlM_cons] at h
    rcases hstep : step env s0 e with _ | s1
    · rw [hstep] at h
      cases h
    · rw [hstep] at h
      exact ih s1 s (step_inv h0 hstep) (by simpa using h)

theorem requestRun_inv (env : AsyncEnv) (evs : List Ev) (s : AState)
    (h : requestRun env evs = some s) : Inv env s :=
  foldlM_inv env evs initState s (init_inv env) h

/-! ## Correlation-key lemmas -/

theorem mtName_colon_free (t : MessageType) : ':' ∉ (mtName t).data := by
  cases t <;> decide

theorem mtName_data_inj {t1 t2 : MessageType}
    (h : (mtName t1).data = (mtName t2).data) : t1 = t2 := by
  cases t1 <;> cases t2 <;> first | rfl | exact absurd h (by decide)

theorem getAsyncKey_data (t : MessageType) (i : Nat) :
    (getAsyncKey t i).data
      = "lora:backend:async:".data ++ ((mtName t).data ++ (':' :: decSpec i)) := by
  have h1 : (getAsyncKey t i).data
      = "lora:backend:async:".data ++ (mtName t).data ++ ":".data ++ (Nat.repr i).data := rfl
  rw [h1, repr_data_eq_decSpec]
  simp [List.append_assoc]

theorem getAsyncKey_injective {t1 t2 : MessageType} {i1 i2 : Nat}
    (h : getAsyncKey t1 i1 = getAsyncKey t2 i2) : t1 = t2 ∧ i1 = i2 := by
  have hd := congrArg String.data h
  rw [getAsyncKey_data, getAsyncKey_data] at hd
  have hd2 := List.append_cancel_left hd
  have hsplit := colon_split_unique _ _ _ _
    (mtName_colon_free t1) (mtName_colon_free t2) hd2
  exact ⟨mtName_data_inj hsplit.1, decSpec_injective hsplit.2⟩

/-! ## Claims -/

/-- C1: the senderID, receiverID and protocol version of every client
returned by `NewClient` are fixed at construction (identity and
`ProtocolVersion1_0` on the branch without TLS material, Go zero values on
the TLS branch), and each of the five operations stamps the outgoing payload
— the first component, which is what `request` marshals and sends — with the
client's protocolVersion, senderID, receiverID and the operation's
message-type tag. -/
theorem C1_construction_and_stamping (config : ClientConfig) (tenv : TLSEnv)
    (c : client) (renv : ReqEnv) (pl : ReqPayload)
    (h : NewClient config tenv = .ok c) :
    (PRStartReq c renv pl).1.BasePayload =
      { ProtocolVersion := c.protocolVersion, SenderID := c.senderID
        ReceiverID := c.receiverID, MessageType := .PRStartReq
        TransactionID := pl.BasePayload.TransactionID } ∧
    (PRStopReq c renv pl).1.BasePayload =
      { ProtocolVersion := c.protocolVersion, SenderID := c.senderID
        ReceiverID := c.receiverID, MessageType := .PRStopReq
        TransactionID := pl.BasePayload.TransactionID } ∧
    (XmitDataReq c renv pl).1.BasePayload =
      { ProtocolVersion := c.protocolVersion, SenderID := c.senderID
        ReceiverID := c.receiverID, MessageType := .XmitDataReq
        TransactionID := pl.BasePayload.TransactionID } ∧
    (ProfileReq c renv pl).1.BasePayload =
      { ProtocolVersion := c.protocolVersion, SenderID := c.senderID
        ReceiverID := c.receiverID, MessageType := .ProfileReq
        TransactionID := pl.BasePayload.TransactionID } ∧
    (HomeNSReq c renv pl).1.BasePayload =
      { ProtocolVersion := c.protocolVersion, SenderID := c.senderID
        ReceiverID := c.receiverID, MessageType := .HomeNSReq
        TransactionID := pl.BasePayload.TransactionID } ∧
    c.protocolVersion =
      (if config.CACert = "" ∧ config.TLSCert = "" ∧ config.TLSKey = ""
       then ProtocolVersion1_0 else "") ∧
    c.senderID =
      (if config.CACert = "" ∧ config.TLSCert = "" ∧ config.TLSKey = ""
       then config.SenderID else "") ∧
    c.receiverID =
      (if config.CACert = "" ∧ config.TLSCert = "" ∧ config.TLSKey = ""
       then config.ReceiverID else "") := by
  refine ⟨rfl, rfl, rfl, rfl, rfl, ?_⟩
  unfold NewClient at h
  split at h
  case isTrue hcond =>
    injection h with h
    subst h
    refine ⟨?_, ?_, ?_⟩ <;> rw [if_pos hcond]
  case isFalse hcond =>
    split at h
    case isTrue => cases h
    case isFalse =>
      split at h
      case isTrue => cases h
      case isFalse =>
        split at h
        case isTrue => cases h
        case isFalse =>
          injection h with h
          subst h
          refine ⟨?_, ?_, ?_⟩ <;> rw [if_neg hcond]

/-- C1 witness: the theorem applied to the concrete configuration `cfgW`,
its client `cW`, and the fixture payload. -/
theorem C1_witness :
    NewClient cfgW tenvW = .ok cW ∧
    ((PRStartReq cW renvW plReqW).1.BasePayload =
      { ProtocolVersion := cW.protocolVersion, SenderID := cW.senderID
        ReceiverID := cW.receiverID, MessageType := .PRStartReq
        TransactionID := plReqW.BasePayload.TransactionID } ∧
    (PRStopReq cW renvW plReqW).1.BasePayload =
      { ProtocolVersion := cW.protocolVersion, SenderID := cW.senderID
        ReceiverID := cW.receiverID, MessageType := .PRStopReq
        TransactionID := plReqW.BasePayload.TransactionID } ∧
    (XmitDataReq cW renvW plReqW).1.BasePayload =
      { ProtocolVersion := cW.protocolVersion, SenderID := cW.senderID
        ReceiverID := cW.receiverID, MessageType := .XmitDataReq
        TransactionID := plReqW.BasePayload.TransactionID } ∧
    (ProfileReq cW renvW plReqW).1.BasePayload =
      { ProtocolVersion := cW.protocolVersion, SenderID := cW.senderID
        ReceiverID := cW.receiverID, MessageType := .ProfileReq
        TransactionID := plReqW.BasePayload.TransactionID } ∧
    (HomeNSReq cW renvW plReqW).1.BasePayload =
      { ProtocolVersion := cW.protocolVersion, SenderID := cW.senderID
        ReceiverID := cW.receiverID, MessageType := .HomeNSReq
        TransactionID := plReqW.BasePayload.TransactionID } ∧
    cW.protocolVersion =
      (if cfgW.CACert = "" ∧ cfgW.TLSCert = "" ∧ cfgW.TLSKey = ""
       then ProtocolVersion1_0 else "") ∧
    cW.senderID =
      (if cfgW.CACert = "" ∧ cfgW.TLSCert = "" ∧ cfgW.TLSKey = ""
       then cfgW.SenderID else "") ∧
    cW.receiverID =
      (if cfgW.CACert = "" ∧ cfgW.TLSCert = "" ∧ cfgW.TLSKey = ""
       then cfgW.ReceiverID else "")) :=
  ⟨by decide, C1_construction_and_stamping cfgW tenvW cW renvW plReqW (by decide)⟩

/-- C3: whenever `request` yields a decodable answer, each of the five
operations validates the result code: a non-success code becomes the
application-level `response error` carrying exactly that code and
description; the success code returns the decoded answer unchanged. -/
theorem C3_result_code_validation (c : client) (renv : ReqEnv) (pl : ReqPayload)
    (ans : AnsPayload) (h : request c renv pl = .ok ans) :
    (ans.Result.ResultCode ≠ Success →
      (PRStartReq c renv pl).2
        = .error (.responseError ans.Result.ResultCode ans.Result.Description) ∧
      (PRStopReq c renv pl).2
        = .error (.responseError ans.Result.ResultCode ans.Result.Description) ∧
      (XmitDataReq c renv pl).2
        = .error (.responseError ans.Result.ResultCode ans.Result.Description) ∧
      (ProfileReq c renv pl).2
        = .error (.responseError ans.Result.ResultCode ans.Result.Description) ∧
      (HomeNSReq c renv pl).2
        = .error (.responseError ans.Result.ResultCode ans.Result.Description)) ∧
    (ans.Result.ResultCode = Success →
      (PRStartReq c renv pl).2 = .ok ans ∧
      (PRStopReq c renv pl).2 = .ok ans ∧
      (XmitDataReq c renv pl).2 = .ok ans ∧
      (ProfileReq c renv pl).2 = .ok ans ∧
      (HomeNSReq c renv pl).2 = .ok ans) := by
  constructor <;> intro hcond <;>
    refine ⟨?_, ?_, ?_, ?_, ?_⟩ <;>
      (show checkResult (request c renv pl) = _
       rw [h]
       simp [checkResult, hcond])

/-- C3 witness: a sync answer with code `500` / `server error` surfaces as
the application failure carrying that code and description. -/
theorem C3_witness :
    request cSyncW renvErrW plReqW = .ok ansErrW ∧
    (PRStartReq cSyncW renvErrW plReqW).2
      = .error (.responseError "500" "server error") := by
  refine ⟨by decide, ?_⟩
  exact ((C3_result_code_validation cSyncW renvErrW plReqW ansErrW (by decide)).1
    (by decide)).1

/-- C8: in sync mode a failed POST surfaces as the transport failure; for a
successful POST the response body is read and decoded identically for every
HTTP status code (no status check), a decodable body is returned, an
undecodable one is an unmarshal failure, and a body-read failure is the raw
read error. -/
theorem C8_sync_mode (c : client) (renv : ReqEnv) (pl : ReqPayload)
    (hsync : c.redisClient = false) (hm : renv.marshalFails = false) :
    (renv.post = .error () → request c renv pl = .error .httpPost) ∧
    (∀ st st' br, request c { renv with post := .ok (st, br) } pl
        = request c { renv with post := .ok (st', br) } pl) ∧
    (∀ st ans, request c { renv with post := .ok (st, .ok (some ans)) } pl = .ok ans) ∧
    (∀ st, request c { renv with post := .ok (st, .ok none) } pl
        = .error .unmarshalResponse) ∧
    (∀ st, request c { renv with post := .ok (st, .error ()) } pl = .error .readBody) := by
  refine ⟨?_, ?_, ?_, ?_, ?_⟩
  · intro hp
    simp [request, hm, hp]
  · intro st st' br
    simp [request, hm, IsAsync, hsync]
  · intro st ans
    simp [request, hm, IsAsync, hsync, unmarshalAns]
  · intro st
    simp [request, hm, IsAsync, hsync, unmarshalAns]
  · intro st
    simp [request, hm, IsAsync, hsync]

/-- C8 witness: a decodable body on a 404 response is still decoded and
returned by the sync client. -/
theorem C8_witness :
    cSyncW.redisClient = false ∧ renvW.marshalFails = false ∧
    request cSyncW { renvW with post := .ok (404, .ok (some ansOkW)) } plReqW
      = .ok ansOkW :=
  ⟨rfl, rfl, (C8_sync_mode cSyncW renvW plReqW rfl rfl).2.2.1 404 ansOkW⟩

/-- C5: when nothing is delivered on the subscribed key within the timeout
window, `readAsync` returns `ErrAsyncTimeout`, a failure kind distinct from
the serialization, transport, application and publish kinds; the machine's
no-answer run returns exactly that failure. -/
theorem C5_async_timeout :
    readAsync none = .error Err.asyncTimeout ∧
    (∀ m, readAsync (some m) = .ok m) ∧
    Err.asyncTimeout ≠ Err.jsonMarshal ∧
    Err.asyncTimeout ≠ Err.httpPost ∧
    Err.asyncTimeout ≠ Err.readBody ∧
    Err.asyncTimeout ≠ Err.unmarshalResponse ∧
    (∀ code desc, Err.asyncTimeout ≠ Err.responseError code desc) ∧
    Err.asyncTimeout ≠ Err.marshalAnswer ∧
    Err.asyncTimeout ≠ Err.publishAnswer ∧
    requestRun envNoAnswer actsNoAnswer
      = some ((requestRun envNoAnswer actsNoAnswer).getD initState) ∧
    ((requestRun envNoAnswer actsNoAnswer).getD initState).result
      = some (.error Err.asyncTimeout) := by
  refine ⟨rfl, fun m => rfl, ?_, ?_, ?_, ?_, ?_, ?_, ?_, rfl, rfl⟩
  · intro hcon
    cases hcon
  · intro hcon
    cases hcon
  · intro hcon
    cases hcon
  · intro hcon
    cases hcon
  · intro code desc hcon
    cases hcon
  · intro hcon
    cases hcon
  · intro hcon
    cases hcon

/-- C5 witness: the theorem's distinctness part applied at the concrete
application-failure payload. -/
theorem C5_witness :
    readAsync none = .error Err.asyncTimeout ∧
    Err.asyncTimeout ≠ Err.responseError "500" "server error" :=
  ⟨C5_async_timeout.1, C5_async_timeout.2.2.2.2.2.2.1 "500" "server error"⟩

/-- C2: contrary to the spec (and to the comment above the goroutine in
`client.request`), nothing forces the spawned subscriber to have executed
`Subscribe` before the POST is issued: the machine admits a complete
execution whose trace runs the POST and the peer's publish before the
subscribe, the published answer is lost, and the request ends in
`ErrAsyncTimeout`; hence subscribe-before-post fails as a universal
statement. -/
theorem C2_subscribe_race :
    requestRun envRace actsRace
      = some ((requestRun envRace actsRace).getD initState) ∧
    ((requestRun envRace actsRace).getD initState).result
      = some (.error Err.asyncTimeout) ∧
    envRace.peerAnswer = some "ans" ∧
    subBeforePost ((requestRun envRace actsRace).getD initState).trace = false ∧
    ¬ (∀ env acts s, requestRun env acts = some s →
        s.result.isSome = true → subBeforePost s.trace = true) := by
  refine ⟨rfl, rfl, rfl, rfl, ?_⟩
  intro hall
  have hh := hall envRace actsRace ((requestRun envRace actsRace).getD initState) rfl rfl
  exact absurd hh (by decide)

/-- C4 counterexample: with a failing POST and the peer's answer already
sitting in the response channel, `request` still returns the transport
failure rather than the answer, so the claimed race does not decide the
outcome. -/
theorem C4_counterexample :
    requestRun envPostFail actsFull
      = some ((requestRun envPostFail actsFull).getD initState) ∧
    ((requestRun envPostFail actsFull).getD initState).respChan = some "ans" ∧
    ((requestRun envPostFail actsFull).getD initState).result
      = some (.error Err.httpPost) ∧
    ¬ (∀ env acts s b, requestRun env acts = some s → s.respChan = some b →
        s.result.isSome = true → s.result = some (.ok b)) := by
  refine ⟨rfl, rfl, rfl, ?_⟩
  intro hall
  have hh := hall envPostFail actsFull
    ((requestRun envPostFail actsFull).getD initState) "ans" rfl rfl rfl
  exact absurd hh (by decide)

/-- C4 amended: in async mode a failed POST short-circuits the operation:
whatever the schedule, any result returned under a failing POST is the
transport failure `http post error`; a published answer is never returned. -/
theorem C4_amended (env : AsyncEnv) (acts : List Ev) (s : AState)
    (hp : env.postFails = true) (h : requestRun env acts = some s) :
    s.result = none ∨ s.result = some (.error Err.httpPost) :=
  (requestRun_inv env acts s h).2.2.2.1 hp

/-- C4 amended witness: the amended theorem at the failing-POST run. -/
theorem C4_amended_witness :
    envPostFail.postFails = true ∧
    requestRun envPostFail actsFull
      = some ((requestRun envPostFail actsFull).getD initState) ∧
    (((requestRun envPostFail actsFull).getD initState).result = none ∨
      ((requestRun envPostFail actsFull).getD initState).result
        = some (.error Err.httpPost)) :=
  ⟨rfl, rfl, C4_amended envPostFail actsFull
    ((requestRun envPostFail actsFull).getD initState) rfl rfl⟩

/-- C7 counterexample: on the transport-failure exit path the operation
returns while the subscription is still open (the subscriber goroutine is
still waiting), so release-before-return fails as a universal statement. -/
theorem C7_counterexample :
    requestRun envPostFail actsPostFailEarly
      = some ((requestRun envPostFail actsPostFailEarly).getD initState) ∧
    ((requestRun envPostFail actsPostFailEarly).getD initState).result.isSome = true ∧
    ((requestRun envPostFail actsPostFailEarly).getD initState).retSubOpen = some true ∧
    ¬ (∀ env acts s, requestRun env acts = some s → s.result.isSome = true →
        s.retSubOpen = some false) := by
  refine ⟨rfl, rfl, rfl, ?_⟩
  intro hall
  have hh := hall envPostFail actsPostFailEarly
    ((requestRun envPostFail actsPostFailEarly).getD initState) rfl rfl
  exact absurd hh (by decide)

/-- C7 amended: on every exit path other than the transport failure — i.e.
whenever the returned result is a received answer or the async timeout —
the subscription has been closed before `request` returns. -/
theorem C7_amended (env : AsyncEnv) (acts : List Ev) (s : AState)
    (h : requestRun env acts = some s) (h2 : s.result.isSome = true)
    (h3 : ¬ s.result = some (.error Err.httpPost)) :
    s.retSubOpen = some false := by
  rcases (requestRun_inv env acts s h).2.2.2.2.1 with hnone | herr | hret
  · rw [hnone] at h2
    cases h2
  · exact absurd herr h3
  · exact hret

/-- C7 amended witness: the answer-received run returns with the
subscription closed. -/
theorem C7_amended_witness :
    requestRun envRace actsFull
      = some ((requestRun envRace actsFull).getD initState) ∧
    ((requestRun envRace actsFull).getD initState).result.isSome = true ∧
    ¬ ((requestRun envRace actsFull).getD initState).result
        = some (.error Err.httpPost) ∧
    ((requestRun envRace actsFull).getD initState).retSubOpen = some false :=
  ⟨rfl, rfl, by decide, C7_amended envRace actsFull
    ((requestRun envRace actsFull).getD initState) rfl rfl (by decide)⟩

/-- C6: `getAsyncKey` is collision-free — equal keys force equal message
type and transaction id; it follows the
`<namespace>:<component>:async:<message-type>:<transaction-id>` format with
namespace `lora` and component `backend`; and the subscribing side
(`request`) and publishing side (`writeAsync`) compute identical keys for
the same message type and transaction id. -/
theorem C6_correlation_key :
    (∀ t1 i1 t2 i2, getAsyncKey t1 i1 = getAsyncKey t2 i2 → t1 = t2 ∧ i1 = i2) ∧
    (∀ t i, getAsyncKey t i
        = "lora" ++ ":" ++ "backend" ++ ":" ++ "async" ++ ":"
          ++ mtName t ++ ":" ++ Nat.repr i) ∧
    (∀ typ plR plA, plR.BasePayload.MessageType = typ →
      plA.BasePayload.TransactionID = plR.BasePayload.TransactionID →
      requestSubKey plR = writeAsyncKey typ plA) := by
  refine ⟨fun t1 i1 t2 i2 h => getAsyncKey_injective h, fun t i => rfl, ?_⟩
  intro typ plR plA htyp hid
  simp [requestSubKey, writeAsyncKey, htyp, hid]

/-- C6 witness: the injectivity and agreement parts applied at the
`PRStartReq` fixtures with transaction id 7. -/
theorem C6_witness :
    getAsyncKey .PRStartReq 7 = getAsyncKey .PRStartReq 7 ∧
    (MessageType.PRStartReq = MessageType.PRStartReq ∧ (7 : Nat) = 7) ∧
    plReqW.BasePayload.MessageType = MessageType.PRStartReq ∧
    ansOkW.BasePayload.TransactionID = plReqW.BasePayload.TransactionID ∧
    requestSubKey plReqW = writeAsyncKey MessageType.PRStartReq ansOkW :=
  ⟨rfl, C6_correlation_key.1 .PRStartReq 7 .PRStartReq 7 rfl, rfl, rfl,
    C6_correlation_key.2.2 .PRStartReq plReqW ansOkW rfl rfl⟩

/-- C9 counterexample: the correlation key for a Start request with
transaction id 7 is not the spec's sample `ns:backend:async:PRStartReq:7`. -/
theorem C9_counterexample :
    ¬ getAsyncKey .PRStartReq 7 = "ns:backend:async:PRStartReq:7" := by decide

/-- C9 amended: the namespace segment in the code is `lora`, so the key is
exactly `lora:backend:async:PRStartReq:7`. -/
theorem C9_amended :
    getAsyncKey .PRStartReq 7 = "lora:backend:async:PRStartReq:7" := by decide

/-- C10: whenever any TLS field of the configuration is non-empty and
`NewClient` succeeds, the returned client carries Go zero values for
identity, protocol version, Redis client and async timeout: `IsAsync` is
false regardless of `config.RedisClient`, both getters return the empty
string, and all five operations stamp requests with empty identity and
empty protocol version. -/
theorem C10_tls_branch_zero_values (config : ClientConfig) (tenv : TLSEnv)
    (c : client) (renv : ReqEnv) (pl : ReqPayload)
    (hne : ¬ (config.CACert = "" ∧ config.TLSCert = "" ∧ config.TLSKey = ""))
    (h : NewClient config tenv = .ok c) :
    c.senderID = "" ∧ c.receiverID = "" ∧ c.protocolVersion = "" ∧
    c.redisClient = false ∧ c.asyncTimeout = 0 ∧
    IsAsync c = false ∧ GetSenderID c = "" ∧ GetReceiverID c = "" ∧
    (PRStartReq c renv pl).1.BasePayload.ProtocolVersion = "" ∧
    (PRStartReq c renv pl).1.BasePayload.SenderID = "" ∧
    (PRStartReq c renv pl).1.BasePayload.ReceiverID = "" ∧
    (PRStopReq c renv pl).1.BasePayload.ProtocolVersion = "" ∧
    (PRStopReq c renv pl).1.BasePayload.SenderID = "" ∧
    (PRStopReq c renv pl).1.BasePayload.ReceiverID = "" ∧
    (XmitDataReq c renv pl).1.BasePayload.ProtocolVersion = "" ∧
    (XmitDataReq c renv pl).1.BasePayload.SenderID = "" ∧
    (XmitDataReq c renv pl).1.BasePayload.ReceiverID = "" ∧
    (ProfileReq c renv pl).1.BasePayload.ProtocolVersion = "" ∧
    (ProfileReq c renv pl).1.BasePayload.SenderID = "" ∧
    (ProfileReq c renv pl).1.BasePayload.ReceiverID = "" ∧
    (HomeNSReq c renv pl).1.BasePayload.ProtocolVersion = "" ∧
    (HomeNSReq c renv pl).1.BasePayload.SenderID = "" ∧
    (HomeNSReq c renv pl).1.BasePayload.ReceiverID = "" := by
  unfold NewClient at h
  split at h
  case isTrue hcond => exact absurd hcond hne
  case isFalse =>
    split at h
    case isTrue => cases h
    case isFalse =>
      split at h
      case isTrue => cases h
      case isFalse =>
        split at h
        case isTrue => cases h
        case isFalse =>
          injection h with h
          subst h
          exact ⟨rfl, rfl, rfl, rfl, rfl, rfl, rfl, rfl, rfl, rfl, rfl, rfl,
            rfl, rfl, rfl, rfl, rfl, rfl, rfl, rfl, rfl, rfl, rfl⟩

/-- C10 witness: a CA-cert configuration with `RedisClient` set still yields
the zero-valued client. -/
theorem C10_witness :
    ¬ (cfgTLSW.CACert = "" ∧ cfgTLSW.TLSCert = "" ∧ cfgTLSW.TLSKey = "") ∧
    cfgTLSW.RedisClient = true ∧
    NewClient cfgTLSW tenvW = .ok cZeroW ∧
    (cZeroW.senderID = "" ∧ cZeroW.receiverID = "" ∧ cZeroW.protocolVersion = "" ∧
      cZeroW.redisClient = false ∧ cZeroW.asyncTimeout = 0 ∧
      IsAsync cZeroW = false ∧ GetSenderID cZeroW = "" ∧ GetReceiverID cZeroW = "") :=
  ⟨by decide, rfl, by decide,
    let full := C10_tls_branch_zero_values cfgTLSW tenvW cZeroW renvW plReqW
      (by decide) (by decide)
    ⟨full.1, full.2.1, full.2.2.1, full.2.2.2.1, full.2.2.2.2.1,
      full.2.2.2.2.2.1, full.2.2.2.2.2.2.1, full.2.2.2.2.2.2.2.1⟩⟩

end Backend
